import Mathlib

/-!
Shallow embedding of the looksmaxing scan pipeline.

Source of truth:
  - metric extraction and validation: the duplicated service module
    (src/unnamed/part_006 and src/unnamed/part_007, functions
    analyzeFacialStructure, validateMetric, getDefaultMetrics);
  - pose conformance check: src/server/services/facePoseDetection.js
    (checkFacePosition);
  - capture orchestrator: the duplicated startScanning loops in
    src/unnamed/part_009 (DashboardScreen lines 576-727, ScanScreen
    lines 1342-1450).

JavaScript numbers are modelled as an inductive RawVal separating the
finite-number case (a rational) from the values the code treats as
invalid (missing key, non-number type, NaN, both infinities).  Thrown
exceptions are modelled with Except and the try/catch blocks with an
explicit match on the Except value.  Console logging, where a claim
cares about it, is a List String threaded through the function.
-/

namespace Looksmax

/-- Raw JSON field value as the oracle may return it.  `missing` is an
absent key (undefined), `nonNumeric` any value whose typeof is not
number, and `num` a finite JS number, modelled as a rational. -/
inductive RawVal where
  | missing
  | nonNumeric
  | nan
  | posInf
  | negInf
  | num (x : ℚ)
  deriving DecidableEq

/-- Embedding of the guard in validateMetric:
typeof value !== number, isNaN(value), or !isFinite(value). -/
def RawVal.isInvalid : RawVal → Bool
  | .num _ => false
  | _ => true

/-- The six-key metric record produced by the pipeline (MetricSet). -/
structure MetricSet where
  water_retention : ℚ
  inflammation_index : ℚ
  lymph_congestion_score : ℚ
  facial_fat_layer : ℚ
  definition_score : ℚ
  potential_ceiling : ℚ
  deriving DecidableEq

/-- Names of the six metric keys, used for the defaults lookup
getDefaultMetrics()[name] inside validateMetric. -/
inductive MetricName where
  | water_retention
  | inflammation_index
  | lymph_congestion_score
  | facial_fat_layer
  | definition_score
  | potential_ceiling
  deriving DecidableEq

/-- Key lookup on a MetricSet, embedding the JS bracket access. -/
def MetricSet.get (m : MetricSet) : MetricName → ℚ
  | .water_retention => m.water_retention
  | .inflammation_index => m.inflammation_index
  | .lymph_congestion_score => m.lymph_congestion_score
  | .facial_fat_layer => m.facial_fat_layer
  | .definition_score => m.definition_score
  | .potential_ceiling => m.potential_ceiling

/-- Embedding of getDefaultMetrics from the analysis service. -/
def getDefaultMetrics : MetricSet :=
  { water_retention := 25
    inflammation_index := 25
    lymph_congestion_score := 25
    facial_fat_layer := 25
    definition_score := 50
    potential_ceiling := 0 }

/-- JS a || b on numbers: the right operand when the left is falsy.
The only falsy rational is 0 (NaN is excluded by construction here). -/
def jsOrQ (a b : ℚ) : ℚ :=
  if a = 0 then b else a

/-- Embedding of parseFloat(value.toFixed(2)): round to two decimal
places, to the nearest hundredth. -/
def toFixed2 (x : ℚ) : ℚ :=
  ((round (x * 100) : ℤ) : ℚ) / 100

/-- Embedding of validateMetric(value, name) from the analysis
service: invalid values fall back to getDefaultMetrics()[name] || 25,
finite numbers are rounded to two decimals and clamped with
Math.max(0, Math.min(100, ...)). -/
def validateMetric (value : RawVal) (name : MetricName) : ℚ :=
  match value with
  | .num x => max 0 (min 100 (toFixed2 x))
  | _ => jsOrQ (getDefaultMetrics.get name) 25

/-- Raw oracle payload after JSON.parse: one RawVal per key the
validation stage reads. -/
structure RawPayload where
  water_retention : RawVal
  inflammation_index : RawVal
  lymph_congestion_score : RawVal
  facial_fat_layer : RawVal
  definition_score : RawVal
  potential_ceiling : RawVal
  deriving DecidableEq

/-- Embedding of the validatedMetrics object literal built inside
analyzeFacialStructure: five validateMetric calls plus a hard-coded
potential_ceiling of 0. -/
def validatedMetricsOf (metrics : RawPayload) : MetricSet :=
  { water_retention := validateMetric metrics.water_retention .water_retention
    inflammation_index := validateMetric metrics.inflammation_index .inflammation_index
    lymph_congestion_score := validateMetric metrics.lymph_congestion_score .lymph_congestion_score
    facial_fat_layer := validateMetric metrics.facial_fat_layer .facial_fat_layer
    definition_score := validateMetric metrics.definition_score .definition_score
    potential_ceiling := 0 }

/-- Embedding of the spread computation over the five scored values:
Math.max(...values) - Math.min(...values). -/
def metricSpread (m : MetricSet) : ℚ :=
  max (max (max (max m.water_retention m.inflammation_index)
    m.lymph_congestion_score) m.facial_fat_layer) m.definition_score -
  min (min (min (min m.water_retention m.inflammation_index)
    m.lymph_congestion_score) m.facial_fat_layer) m.definition_score

/-- Text standing for the console.warn low-spread message emitted by
analyzeFacialStructure when spread < 10. -/
def lowSpreadWarning : String :=
  "AI returned metrics with low spread"

/-- Embedding of the validation stage of analyzeFacialStructure (the
code after a successful JSON.parse): build validatedMetrics, compute
the spread, log a warning when spread < 10, and return the metrics
unchanged.  The List String is the console log. -/
def validationStage (console : List String) (metrics : RawPayload) :
    MetricSet × List String :=
  let validatedMetrics := validatedMetricsOf metrics
  let spread := metricSpread validatedMetrics
  if spread < 10 then
    (validatedMetrics, console ++ [lowSpreadWarning])
  else
    (validatedMetrics, console)

/-- Outcome of the oracle round trip inside analyzeFacialStructure:
the API call threw, the unwrapped message had no usable content,
JSON.parse threw, or a payload was parsed. -/
inductive OracleOutcome where
  | apiThrow
  | noContent
  | parseFail
  | content (metrics : RawPayload)
  deriving DecidableEq

/-- The environment-dependent facts analyzeFacialStructure branches
on, in source order: the images argument is a nonempty array, the
lazily built OpenAI client exists (API key present), every image has
a usable base64 payload (otherwise the mapping callback throws), and
finally the oracle outcome. -/
structure AnalyzeInput where
  imagesPresent : Bool
  clientAvailable : Bool
  imagesValid : Bool
  oracle : OracleOutcome

/-- Body of the outer try block of analyzeFacialStructure.  Thrown
exceptions are the Except.error case: an invalid base64 image throws
from the images.map callback, and an API failure is rethrown as a new
Error.  All other abnormal paths return the defaults directly. -/
def analyzeBody (console : List String) (input : AnalyzeInput) :
    Except String (MetricSet × List String) :=
  if !input.imagesPresent then .ok (getDefaultMetrics, console)
  else if !input.clientAvailable then .ok (getDefaultMetrics, console)
  else if !input.imagesValid then .error "Invalid base64 data for image"
  else
    match input.oracle with
    | .apiThrow => .error "OpenAI API error"
    | .noContent => .ok (getDefaultMetrics, console)
    | .parseFail => .ok (getDefaultMetrics, console)
    | .content metrics => .ok (validationStage console metrics)

/-- Embedding of analyzeFacialStructure: run the body and recover
from any thrown error with the default metric set (the outer catch
block). -/
def analyzeFacialStructure (console : List String) (input : AnalyzeInput) :
    MetricSet × List String :=
  match analyzeBody console input with
  | .ok r => r
  | .error _ => (getDefaultMetrics, console)

/-- The inputs on which the pipeline cannot obtain a usable parsed
oracle payload. -/
def analyzeFails (input : AnalyzeInput) : Bool :=
  !input.imagesPresent || !input.clientAvailable || !input.imagesValid ||
    (match input.oracle with
     | .content _ => false
     | _ => true)

/-- Result record of checkFacePosition, field for field the object
literals returned by the source. -/
structure PoseCheckResult where
  ready : Bool
  message : String
  confidence : ℚ
  correctPosition : Bool
  deriving DecidableEq

/-- Outcome of the oracle round trip inside checkFacePosition.  In
the parsed case, correctPosition is the raw JSON field when it was a
boolean (none when missing or of another type) and message is the raw
string field (none when missing). -/
inductive PoseCheckOutcome where
  | clientUnavailable
  | transportThrow
  | noContent
  | parseFail
  | parsed (correctPosition : Option Bool) (message : Option String)
  deriving DecidableEq

/-- JS msg || fallback on an optional string field: the fallback is
used when the field is absent or the empty string (both falsy). -/
def jsOrStr (a : Option String) (b : String) : String :=
  match a with
  | some s => if s = "" then b else s
  | none => b

/-- Diagnostic message used when the OpenAI client is unavailable. -/
def msgServiceUnavailable : String := "AI service unavailable"

/-- Diagnostic message used when the response carried no content. -/
def msgNoResponse : String := "No response from AI"

/-- Diagnostic message used when JSON.parse threw. -/
def msgParseFailed : String := "Failed to parse response"

/-- Diagnostic message used by the outer catch block. -/
def msgCheckError : String := "Error checking face"

/-- Fallback message on a positive parsed result. -/
def correctPosMsg (p : String) : String :=
  "User is in correct " ++ p ++ " position"

/-- Fallback message on a negative parsed result. -/
def incorrectPosMsg (p : String) : String :=
  "User is not in correct " ++ p ++ " position"

/-- Body of the outer try block of checkFacePosition: every branch of
the source except the outer catch.  Only the transport failure of the
chat-completions call throws out of the body. -/
def checkFacePositionBody (requiredPose : String) (o : PoseCheckOutcome) :
    Except String PoseCheckResult :=
  match o with
  | .clientUnavailable =>
    .ok { ready := false, message := msgServiceUnavailable,
          confidence := 0, correctPosition := false }
  | .transportThrow => .error "transport failure"
  | .noContent =>
    .ok { ready := false, message := msgNoResponse,
          confidence := 0, correctPosition := false }
  | .parseFail =>
    .ok { ready := false, message := msgParseFailed,
          confidence := 0, correctPosition := false }
  | .parsed cp msg =>
    let correctPosition := cp == some true
    .ok { ready := correctPosition
          message := jsOrStr msg
            (if correctPosition then correctPosMsg requiredPose
             else incorrectPosMsg requiredPose)
          confidence := if correctPosition then 90 else 0
          correctPosition := correctPosition }

/-- Embedding of checkFacePosition: run the body and recover from any
thrown error with the catch-all result record. -/
def checkFacePosition (requiredPose : String) (o : PoseCheckOutcome) :
    PoseCheckResult :=
  match checkFacePositionBody requiredPose o with
  | .ok r => r
  | .error _ =>
    { ready := false, message := msgCheckError,
      confidence := 0, correctPosition := false }

/-- Outcomes of checkFacePosition that are not a parsed oracle
answer. -/
def failedPoseOutcome : PoseCheckOutcome → Bool
  | .parsed _ _ => false
  | _ => true

/-- ASCII lowercase of one character, the behaviour of JS
toLowerCase() on the pose identifiers this endpoint receives. -/
def asciiLowerChar (c : Char) : Char :=
  if 65 ≤ c.toNat ∧ c.toNat ≤ 90 then Char.ofNat (c.toNat + 32) else c

/-- Embedding of requiredPose.toLowerCase() on ASCII strings. -/
def jsToLowerCase (s : String) : String :=
  ⟨s.data.map asciiLowerChar⟩

/-- Key of the center pose entry. -/
def centerKey : String := "center"

/-- Key of the left pose entry. -/
def leftKey : String := "left"

/-- Key of the right pose entry. -/
def rightKey : String := "right"

/-- Key of the up pose entry. -/
def upKey : String := "up"

/-- Key of the down pose entry. -/
def downKey : String := "down"

/-- Question text of the center pose entry of poseQuestions. -/
def centerPoseQuestion : String :=
  "Does it look like a user is looking straight ahead at the camera, there are no objects in the way, AND they are NOT wearing glasses?"

/-- Question text of the left pose entry of poseQuestions. -/
def leftPoseQuestion : String :=
  "Does it look like a user is looking to their left, there are no objects in the way, AND they are NOT wearing glasses?"

/-- Question text of the right pose entry of poseQuestions. -/
def rightPoseQuestion : String :=
  "Does it look like a user is looking to their right, there are no objects in the way, AND they are NOT wearing glasses?"

/-- Question text of the up pose entry of poseQuestions. -/
def upPoseQuestion : String :=
  "Does it look like a user is looking up, there are no objects in the way, AND they are NOT wearing glasses?"

/-- Question text of the down pose entry of poseQuestions. -/
def downPoseQuestion : String :=
  "Does it look like a user is looking down, there are no objects in the way, AND they are NOT wearing glasses?"

/-- Embedding of the poseQuestions object literal of
checkFacePosition as a key lookup: defined entries for the five pose
ids, undefined (none) for every other key. -/
def poseQuestions (key : String) : Option String :=
  if key = centerKey then some centerPoseQuestion
  else if key = leftKey then some leftPoseQuestion
  else if key = rightKey then some rightPoseQuestion
  else if key = upKey then some upPoseQuestion
  else if key = downKey then some downPoseQuestion
  else none

/-- Embedding of the selection line of checkFacePosition:
poseQuestions lookup at the lowercased pose with the center question
as the or-else fallback. -/
def selectPoseQuestion (requiredPose : String) : String :=
  match poseQuestions (jsToLowerCase requiredPose) with
  | some q => q
  | none => centerPoseQuestion

/-- The five pose keys of the poseQuestions table. -/
def poseKeys : List String :=
  [centerKey, leftKey, rightKey, upKey, downKey]

/-- What the UI lets the user answer on the position-not-correct
alert of the startScanning loops. -/
inductive UserChoice where
  | retake
  | skip
  deriving DecidableEq

/-- How one pose-check round trip of the startScanning loops ends:
the endpoint answered correctPosition true, it answered with a
semantic rejection (carrying the choice the user would make if the
retake/skip alert is shown), or the axios call threw. -/
inductive CheckOutcome where
  | accept
  | reject (choice : UserChoice)
  | throwErr
  deriving DecidableEq

/-- One iteration of the capture loop as scripted input: the frame
captureFrame produced (none models both a null return and an
undersized frame failing the length guard) and the pose-check
outcome for it.  Frames are identified by numbers. -/
structure Attempt where
  frame : Option Nat
  check : CheckOutcome
  deriving DecidableEq

/-- How one pose of the scan resolved: the frames this pose pushed
onto capturedImagesList, the number of retake/skip alerts shown to
the user, and the retryCount variable when the while loop exited. -/
structure PoseResolution where
  pushed : List Nat
  prompts : Nat
  finalRetryCount : Nat
  deriving DecidableEq

/-- Embedding of the per-pose while loop of startScanning (both the
DashboardScreen and the ScanScreen copy have identical control flow
for the accumulator).  The script maps the current retryCount to that
events of that iteration; the fuel argument keeps the recursion structural
and is maintained at 3 - retryCount, so fuel 0 is exactly the
while-condition retryCount < maxRetries failing. -/
def poseLoopGo (script : Nat → Attempt) : Nat → Nat → PoseResolution
  | 0, retryCount => ⟨[], 0, retryCount⟩
  | fuel + 1, retryCount =>
    match (script retryCount).frame with
    | some f =>
      match (script retryCount).check with
      | .accept => ⟨[f], 0, retryCount⟩
      | .throwErr => ⟨[f], 0, retryCount⟩
      | .reject choice =>
        if retryCount + 1 < 3 then
          match choice with
          | .retake =>
            let r := poseLoopGo script fuel (retryCount + 1)
            ⟨r.pushed, r.prompts + 1, r.finalRetryCount⟩
          | .skip => ⟨[], 1, retryCount + 1⟩
        else
          ⟨[], 0, retryCount + 1⟩
    | none =>
      if retryCount + 1 < 3 then
        poseLoopGo script fuel (retryCount + 1)
      else
        ⟨[], 0, retryCount + 1⟩

/-- The loop of one pose started with retryCount 0, as startScanning
does. -/
def poseLoop (script : Nat → Attempt) : PoseResolution :=
  poseLoopGo script 3 0

/-- The capturedImagesList accumulated over the whole pose sequence:
each pose appends whatever its loop pushed. -/
def runScanLoop (scripts : List (Nat → Attempt)) : List Nat :=
  scripts.foldl (fun acc script => acc ++ (poseLoop script).pushed) []

/-- How startScanning ends after the pose loop: hand the images to
processImages, or show the no-images error alert. -/
inductive ScanEnd where
  | processing (images : List Nat)
  | noImagesError
  deriving DecidableEq

/-- Embedding of the tail of startScanning: processImages runs only
when at least one image was captured. -/
def startScanning (scripts : List (Nat → Attempt)) : ScanEnd :=
  let captured := runScanLoop scripts
  if captured.length > 0 then .processing captured else .noImagesError

/-- Script of a pose whose check is always rejected semantically and
whose user always chooses skip on the alert. -/
def skipScript : Nat → Attempt :=
  fun _ => ⟨some 7, .reject .skip⟩

/-- All five scored fields of a payload fail the validity guard. -/
def allScoredInvalid (raw : RawPayload) : Bool :=
  raw.water_retention.isInvalid && raw.inflammation_index.isInvalid &&
  raw.lymph_congestion_score.isInvalid && raw.facial_fat_layer.isInvalid &&
  raw.definition_score.isInvalid

/-- The five scored metric names (everything except the ceiling). -/
def isScoredName : MetricName → Bool
  | .potential_ceiling => false
  | _ => true

/-- A payload on which every scored field is invalid, one of each
kind of garbage. -/
def garbagePayload : RawPayload :=
  ⟨.missing, .nan, .nonNumeric, .posInf, .negInf, .missing⟩

/-- The all-fifty payload of the low-spread scenario. -/
def allFiftyPayload : RawPayload :=
  ⟨.num 50, .num 50, .num 50, .num 50, .num 50, .num 0⟩

/-- A pose id outside the five known ones. -/
def unknownPoseSample : String := "Profile"

/-- Script of a pose whose check always throws at transport level. -/
def throwScript : Nat → Attempt :=
  fun _ => ⟨some 5, .throwErr⟩

/-- Rounding to two decimals is monotone. -/
lemma toFixed2_mono {x y : ℚ} (h : x ≤ y) : toFixed2 x ≤ toFixed2 y := by
  unfold toFixed2
  have hf : round (x * 100) ≤ round (y * 100) := by
    rw [round_eq, round_eq]
    exact Int.floor_le_floor (by linarith)
  have hc : ((round (x * 100) : ℤ) : ℚ) ≤ ((round (y * 100) : ℤ) : ℚ) := by
    exact_mod_cast hf
  linarith

/-- Rounding to two decimals fixes 0. -/
lemma toFixed2_zero : toFixed2 0 = 0 := by
  norm_num [toFixed2, round_eq]

/-- Rounding to two decimals fixes 100. -/
lemma toFixed2_hundred : toFixed2 100 = 100 := by
  norm_num [toFixed2, round_eq]

/-- On a finite number, validateMetric computes exactly the spec
order of operations as well: clamp to the unit-percent range first,
then round to two decimals.  The code rounds first and then clamps;
the two agree because rounding is monotone and fixes both bounds. -/
lemma validateMetric_num_clamp (x : ℚ) (name : MetricName) :
    validateMetric (.num x) name = toFixed2 (max 0 (min 100 x)) := by
  have key : (0:ℚ) ⊔ (100 ⊓ toFixed2 x) = toFixed2 (0 ⊔ (100 ⊓ x)) := by
    rcases le_total x 0 with hx | hx
    · have ht : toFixed2 x ≤ 0 := by
        simpa [toFixed2_zero] using toFixed2_mono hx
      rw [show (100:ℚ) ⊓ x = x from min_eq_right (by linarith),
        show (0:ℚ) ⊔ x = 0 from max_eq_left hx, toFixed2_zero,
        show (100:ℚ) ⊓ toFixed2 x = toFixed2 x from min_eq_right (by linarith),
        show (0:ℚ) ⊔ toFixed2 x = 0 from max_eq_left ht]
    · rcases le_total x 100 with hx2 | hx2
      · have h0 : (0:ℚ) ≤ toFixed2 x := by
          simpa [toFixed2_zero] using toFixed2_mono hx
        have h100 : toFixed2 x ≤ 100 := by
          simpa [toFixed2_hundred] using toFixed2_mono hx2
        rw [show (100:ℚ) ⊓ x = x from min_eq_right hx2,
          show (0:ℚ) ⊔ x = x from max_eq_right hx,
          show (100:ℚ) ⊓ toFixed2 x = toFixed2 x from min_eq_right h100,
          show (0:ℚ) ⊔ toFixed2 x = toFixed2 x from max_eq_right h0]
      · have h100 : (100:ℚ) ≤ toFixed2 x := by
          simpa [toFixed2_hundred] using toFixed2_mono hx2
        rw [show (100:ℚ) ⊓ x = 100 from min_eq_left hx2,
          show (0:ℚ) ⊔ (100:ℚ) = 100 from max_eq_right (by norm_num), toFixed2_hundred,
          show (100:ℚ) ⊓ toFixed2 x = 100 from min_eq_left h100,
          show (0:ℚ) ⊔ (100:ℚ) = 100 from max_eq_right (by norm_num)]
  simpa [validateMetric] using key

/-- An invalid raw value always falls back to the defaults lookup. -/
lemma validateMetric_invalid {v : RawVal} (name : MetricName)
    (h : v.isInvalid = true) :
    validateMetric v name = jsOrQ (getDefaultMetrics.get name) 25 := by
  cases v <;> simp_all [RawVal.isInvalid, validateMetric]

/-- Every validateMetric result lies in the closed range 0..100. -/
lemma validateMetric_bounds (v : RawVal) (name : MetricName) :
    0 ≤ validateMetric v name ∧ validateMetric v name ≤ 100 := by
  cases v with
  | num x =>
    simp only [validateMetric]
    exact ⟨le_max_left _ _, max_le (by norm_num) (min_le_left _ _)⟩
  | missing => cases name <;> norm_num [validateMetric, jsOrQ, getDefaultMetrics, MetricSet.get]
  | nonNumeric => cases name <;> norm_num [validateMetric, jsOrQ, getDefaultMetrics, MetricSet.get]
  | nan => cases name <;> norm_num [validateMetric, jsOrQ, getDefaultMetrics, MetricSet.get]
  | posInf => cases name <;> norm_num [validateMetric, jsOrQ, getDefaultMetrics, MetricSet.get]
  | negInf => cases name <;> norm_num [validateMetric, jsOrQ, getDefaultMetrics, MetricSet.get]

/-- The metric set component of the validation stage is always the
per-field validated record, whatever the console state and whether or
not the low-spread warning fires. -/
lemma validationStage_fst (console : List String) (metrics : RawPayload) :
    (validationStage console metrics).1 = validatedMetricsOf metrics := by
  simp only [validationStage]
  split <;> rfl

/-- Rounding to two decimals fixes 50. -/
lemma toFixed2_fifty : toFixed2 50 = 50 := by
  norm_num [toFixed2, round_eq]

/-- The all-fifty payload validates to values of spread below 10. -/
lemma allFifty_spread_lt :
    metricSpread (validatedMetricsOf allFiftyPayload) < 10 := by
  have h : validateMetric (.num 50) .water_retention = 50 := by
    simp only [validateMetric, toFixed2_fifty]
    rw [show ((100:ℚ) ⊓ 50) = 50 from min_eq_right (by norm_num),
      show ((0:ℚ) ⊔ 50) = 50 from max_eq_right (by norm_num)]
  simp only [allFiftyPayload, validatedMetricsOf, metricSpread]
  simp only [validateMetric, toFixed2_fifty]
  rw [show ((100:ℚ) ⊓ 50) = 50 from min_eq_right (by norm_num),
    show ((0:ℚ) ⊔ 50) = 50 from max_eq_right (by norm_num)]
  norm_num

/-- C6: for every raw oracle payload and console state, the validated
metric set has potential_ceiling equal to 0, regardless of any
potential_ceiling value the oracle returned. -/
theorem potential_ceiling_always_zero :
    ∀ (console : List String) (raw : RawPayload),
      (validationStage console raw).1.potential_ceiling = 0 := by
  intro console raw
  rw [validationStage_fst]
  rfl

/-- C9: the metric validation stage is a pure, deterministic function
of the raw oracle payload: its metric output is independent of the
ambient console state, and applying the stage twice to the same raw
response (threading the console through) yields identical output. -/
theorem validationStage_deterministic :
    ∀ (c1 c2 : List String) (raw : RawPayload),
      (validationStage c1 raw).1 = (validationStage c2 raw).1 ∧
      (validationStage (validationStage c1 raw).2 raw).1 =
        (validationStage c1 raw).1 := by
  intro c1 c2 raw
  constructor <;> rw [validationStage_fst, validationStage_fst]

/-- C7: when the spread over the five validated scored metrics is
below 10, the validation stage only appends a consistency warning to
the console and returns the metric values unchanged, identical to the
per-field validated record, with no synthetic adjustment. -/
theorem low_spread_unchanged :
    ∀ (console : List String) (raw : RawPayload),
      metricSpread (validatedMetricsOf raw) < 10 →
      (validationStage console raw).1 = validatedMetricsOf raw ∧
      (validationStage console raw).2 = console ++ [lowSpreadWarning] := by
  intro console raw h
  refine ⟨validationStage_fst console raw, ?_⟩
  simp only [validationStage]
  rw [if_pos h]

/-- Witness for low_spread_unchanged at the all-fifty payload. -/
theorem low_spread_unchanged_check :
    (validationStage [] allFiftyPayload).1 = validatedMetricsOf allFiftyPayload ∧
    (validationStage [] allFiftyPayload).2 = [] ++ [lowSpreadWarning] :=
  low_spread_unchanged [] allFiftyPayload allFifty_spread_lt

/-- C1: for every raw oracle payload, the validated result carries
all six keys, each a number in the range 0..100 (finite by
construction of the embedding), and when every scored input is
invalid the result equals the static default set. -/
theorem validationStage_always_complete :
    ∀ (console : List String) (raw : RawPayload),
      ((0 ≤ (validationStage console raw).1.water_retention ∧
          (validationStage console raw).1.water_retention ≤ 100) ∧
        (0 ≤ (validationStage console raw).1.inflammation_index ∧
          (validationStage console raw).1.inflammation_index ≤ 100) ∧
        (0 ≤ (validationStage console raw).1.lymph_congestion_score ∧
          (validationStage console raw).1.lymph_congestion_score ≤ 100) ∧
        (0 ≤ (validationStage console raw).1.facial_fat_layer ∧
          (validationStage console raw).1.facial_fat_layer ≤ 100) ∧
        (0 ≤ (validationStage console raw).1.definition_score ∧
          (validationStage console raw).1.definition_score ≤ 100) ∧
        (0 ≤ (validationStage console raw).1.potential_ceiling ∧
          (validationStage console raw).1.potential_ceiling ≤ 100)) ∧
      (allScoredInvalid raw = true →
        (validationStage console raw).1 = getDefaultMetrics) := by
  intro console raw
  rw [validationStage_fst]
  constructor
  · simp only [validatedMetricsOf]
    exact ⟨validateMetric_bounds _ _, validateMetric_bounds _ _,
      validateMetric_bounds _ _, validateMetric_bounds _ _,
      validateMetric_bounds _ _, by norm_num⟩
  · intro h
    simp only [allScoredInvalid, Bool.and_eq_true] at h
    obtain ⟨⟨⟨⟨h1, h2⟩, h3⟩, h4⟩, h5⟩ := h
    simp only [validatedMetricsOf]
    rw [validateMetric_invalid _ h1, validateMetric_invalid _ h2,
      validateMetric_invalid _ h3, validateMetric_invalid _ h4,
      validateMetric_invalid _ h5]
    norm_num [jsOrQ, MetricSet.get, getDefaultMetrics]

/-- Witness for validationStage_always_complete at a payload whose
every scored field is invalid. -/
theorem validationStage_always_complete_check :
    (validationStage [] garbagePayload).1 = getDefaultMetrics :=
  (validationStage_always_complete [] garbagePayload).2 rfl

/-- C5: per-field validation substitutes the default component (25
for the four lower-is-better metrics, 50 for definition_score) when
the raw value is missing, non-numeric, NaN or infinite; otherwise it
clamps the value to 0..100 and rounds it to two decimal places, so
150 yields 100 and -30 yields 0. -/
theorem validateMetric_per_field :
    ∀ (name : MetricName) (v : RawVal) (x : ℚ),
      isScoredName name = true →
      (v.isInvalid = true → validateMetric v name = getDefaultMetrics.get name) ∧
      validateMetric (.num x) name = toFixed2 (max 0 (min 100 x)) ∧
      validateMetric (.num 150) name = 100 ∧
      validateMetric (.num (-30)) name = 0 := by
  intro name v x hs
  refine ⟨?_, validateMetric_num_clamp x name, ?_, ?_⟩
  · intro hv
    rw [validateMetric_invalid _ hv]
    cases name <;> simp_all [isScoredName] <;>
      norm_num [jsOrQ, getDefaultMetrics, MetricSet.get]
  · rw [validateMetric_num_clamp,
      show ((100:ℚ) ⊓ 150) = 100 from min_eq_left (by norm_num),
      show ((0:ℚ) ⊔ 100) = 100 from max_eq_right (by norm_num),
      toFixed2_hundred]
  · rw [validateMetric_num_clamp,
      show ((100:ℚ) ⊓ (-30)) = -30 from min_eq_right (by norm_num),
      show ((0:ℚ) ⊔ (-30:ℚ)) = 0 from max_eq_left (by norm_num),
      toFixed2_zero]

/-- Witness for validateMetric_per_field at the water retention key. -/
theorem validateMetric_per_field_check :
    validateMetric .nan .water_retention = getDefaultMetrics.get .water_retention ∧
    validateMetric (.num 150) .water_retention = 100 ∧
    validateMetric (.num (-30)) .water_retention = 0 := by
  have h := validateMetric_per_field .water_retention .nan 0 rfl
  exact ⟨h.1 rfl, h.2.2.1, h.2.2.2⟩

/-- C3: whenever metric extraction cannot obtain a usable parsed
oracle payload (no images, missing credentials, image-processing
throw, transport/API error, absent content, or JSON-parse failure),
analyzeFacialStructure returns the static default metric set
(25, 25, 25, 25, 50, 0), and even a thrown body error is swallowed by
the catch block rather than propagated to the caller. -/
theorem analyze_defaults_on_failure :
    getDefaultMetrics = MetricSet.mk 25 25 25 25 50 0 ∧
    ∀ (console : List String) (input : AnalyzeInput),
      (analyzeFails input = true →
        (analyzeFacialStructure console input).1 = getDefaultMetrics) ∧
      (∀ e, analyzeBody console input = .error e →
        analyzeFacialStructure console input = (getDefaultMetrics, console)) := by
  refine ⟨rfl, ?_⟩
  intro console input
  obtain ⟨ip, ca, iv, o⟩ := input
  constructor
  · intro h
    cases ip <;> cases ca <;> cases iv <;> cases o <;>
      simp_all [analyzeFails, analyzeFacialStructure, analyzeBody]
  · intro e he
    cases ip <;> cases ca <;> cases iv <;> cases o <;>
      simp_all [analyzeFacialStructure, analyzeBody]

/-- Witness for analyze_defaults_on_failure at a missing-credentials
input whose oracle stage would have parsed fine. -/
theorem analyze_defaults_on_failure_check :
    (analyzeFacialStructure [] ⟨true, false, true, .parseFail⟩).1 =
      getDefaultMetrics :=
  ((analyze_defaults_on_failure.2 [] ⟨true, false, true, .parseFail⟩).1) rfl

/-- C4: checkFacePosition never surfaces a thrown error to its
caller: every failure outcome (missing oracle credentials, transport
throw, absent content, unparsable response) yields ready false,
correctPosition false and confidence 0; and in every returned result
ready equals correctPosition while confidence is exactly 90 when
correctPosition is true and 0 otherwise. -/
theorem checkFacePosition_contract :
    ∀ (pose : String) (o : PoseCheckOutcome),
      (checkFacePosition pose o).ready = (checkFacePosition pose o).correctPosition ∧
      (checkFacePosition pose o).confidence =
        (if (checkFacePosition pose o).correctPosition then 90 else 0) ∧
      (failedPoseOutcome o = true →
        (checkFacePosition pose o).ready = false ∧
        (checkFacePosition pose o).correctPosition = false ∧
        (checkFacePosition pose o).confidence = 0) := by
  intro pose o
  cases o <;>
    simp [checkFacePosition, checkFacePositionBody, failedPoseOutcome]

/-- Witness for checkFacePosition_contract at a transport throw. -/
theorem checkFacePosition_contract_check :
    (checkFacePosition centerKey .transportThrow).ready = false ∧
    (checkFacePosition centerKey .transportThrow).correctPosition = false ∧
    (checkFacePosition centerKey .transportThrow).confidence = 0 :=
  (checkFacePosition_contract centerKey .transportThrow).2.2 rfl

/-- C10: for every requiredPose string whose lowercasing is not one
of the five known pose ids, checkFacePosition reports no unknown-pose
error; it silently selects the center pose question as the fallback
when building the oracle prompt. -/
theorem unknown_pose_falls_back :
    ∀ (s : String), jsToLowerCase s ∉ poseKeys →
      selectPoseQuestion s = centerPoseQuestion := by
  intro s h
  simp only [poseKeys, List.mem_cons, List.not_mem_nil, or_false, not_or] at h
  obtain ⟨h1, h2, h3, h4, h5⟩ := h
  simp [selectPoseQuestion, poseQuestions, h1, h2, h3, h4, h5]

/-- Witness for unknown_pose_falls_back at an unknown pose id. -/
theorem unknown_pose_falls_back_check :
    selectPoseQuestion unknownPoseSample = centerPoseQuestion :=
  unknown_pose_falls_back unknownPoseSample (by decide)

/-- C8: when the pose-check call fails at transport level, the
captured frame is appended to the accumulator unconditionally, no
retake/skip prompt is shown, no retry is consumed, and the loop ends
for this pose no matter how much fuel remains. -/
theorem transport_failure_accepts_frame :
    ∀ (script : Nat → Attempt) (fuel retryCount f : Nat),
      (script retryCount).frame = some f →
      (script retryCount).check = .throwErr →
      poseLoopGo script (fuel + 1) retryCount = ⟨[f], 0, retryCount⟩ := by
  intro script fuel r f hf hc
  have hs : script r = ⟨some f, .throwErr⟩ := by
    cases h : script r
    simp_all
  simp [poseLoopGo, hs]

/-- Witness for transport_failure_accepts_frame on a script whose
check always throws. -/
theorem transport_failure_accepts_frame_check :
    poseLoopGo throwScript 3 0 = ⟨[5], 0, 0⟩ :=
  transport_failure_accepts_frame throwScript 2 0 5 rfl rfl

/-- C2 counterexample: with the pose-check semantically rejected and
the user choosing skip, the resolved pose appends nothing: the
accumulator stays empty instead of receiving the captured frame 7,
and six such poses end the scan in the no-images error rather than
reaching finalizing with 6 frames. -/
theorem skip_drops_frame_cex :
    (poseLoop skipScript).pushed = [] ∧
    startScanning (List.replicate 6 skipScript) = .noImagesError := by
  constructor <;> rfl

/-- Replicated all-skip pose scripts accumulate no frames. -/
lemma runScanLoop_replicate_skip :
    ∀ (k : Nat) (acc : List Nat),
      List.foldl (fun acc script => acc ++ (poseLoop script).pushed) acc
        (List.replicate k skipScript) = acc := by
  intro k
  induction k with
  | zero => intro acc; rfl
  | succ n ih =>
    intro acc
    rw [List.replicate_succ, List.foldl_cons]
    have hp : (poseLoop skipScript).pushed = [] := rfl
    rw [hp, List.append_nil]
    exact ih acc

/-- C2 amended: a pose resolved by skip (user choice after a semantic
rejection, or forced skip at max retries) appends nothing to the
accumulator, so resolved poses contribute one frame only when they
resolve by acceptance; in particular, if every pose-check is
semantically rejected and the user always skips, the session ends
with zero frames and the no-images error instead of finalizing with
6 frames. -/
theorem skip_appends_nothing :
    (∀ (script : Nat → Attempt) (fuel r f : Nat),
        r + 1 < 3 →
        (script r).frame = some f →
        (script r).check = .reject .skip →
        poseLoopGo script (fuel + 1) r = ⟨[], 1, r + 1⟩) ∧
    (∀ (script : Nat → Attempt) (fuel r f : Nat) (c : UserChoice),
        ¬ r + 1 < 3 →
        (script r).frame = some f →
        (script r).check = .reject c →
        poseLoopGo script (fuel + 1) r = ⟨[], 0, r + 1⟩) ∧
    (∀ k, startScanning (List.replicate k skipScript) = .noImagesError) := by
  refine ⟨?_, ?_, ?_⟩
  · intro script fuel r f hr hf hc
    have hs : script r = ⟨some f, .reject .skip⟩ := by
      cases h : script r
      simp_all
    simp [poseLoopGo, hs, hr]
  · intro script fuel r f c hr hf hc
    have hs : script r = ⟨some f, .reject c⟩ := by
      cases h : script r
      simp_all
    simp [poseLoopGo, hs, hr]
  · intro k
    have h : runScanLoop (List.replicate k skipScript) = [] :=
      runScanLoop_replicate_skip k []
    simp [startScanning, h]

/-- Witness for skip_appends_nothing at the always-skip script. -/
theorem skip_appends_nothing_check :
    poseLoopGo skipScript 3 0 = ⟨[], 1, 1⟩ ∧
    startScanning (List.replicate 6 skipScript) = .noImagesError :=
  ⟨skip_appends_nothing.1 skipScript 2 0 7 (by decide) rfl rfl,
    skip_appends_nothing.2.2 6⟩

end Looksmax
